import Mathlib

/-!
Verification of the real-estate-alerter core (src/app.py) against its
specification.  The Python source is shallowly embedded: each pandas /
string operation used by the app is modelled as an executable Lean
function over lists, rationals and explicit option types (a pandas null /
NaN cell is `none`).  Definitions are translated from the source; the few
places where a definition follows the specification's wording instead
(for refinement comparisons) say so in their doc comment.
-/

/-- A Python literal value as produced by `ast.literal_eval` on the flat
dictionary literals of the uploaded Shape-B table (only string and integer
values occur there), and as stored in object columns such as
`has_celebrity`. -/
inductive PyVal where
  | str (s : String)
  | int (n : Int)
deriving DecidableEq, Repr

/-- The single-quote character, built by code point to keep it out of
the surrounding text. -/
def sqc : Char := Char.ofNat 39

/-- The backquote character used by BigQuery table references. -/
def bqc : Char := Char.ofNat 96

/-- Opening curly brace character. -/
def obr : Char := Char.ofNat 123

/-- Closing curly brace character. -/
def cbr : Char := Char.ofNat 125

/-- One-character string holding a single quote. -/
def sqS : String := String.singleton sqc

/-- One-character string holding a backquote. -/
def bqS : String := String.singleton bqc

/-- A parsed Python dictionary: association list of key/value pairs. -/
def PyDict := List (String × PyVal)

instance : DecidableEq PyDict := by
  unfold PyDict
  infer_instance

/-- Python `dict.get(k, None)`: the value stored under `k`, if any.  A
Python dict literal with a repeated key keeps the last occurrence, hence
the reversed lookup. -/
def dictGet (d : PyDict) (k : String) : Option PyVal :=
  (d.reverse.find? (fun p => p.1 = k)).map (·.2)

/-- Drop leading spaces (the only whitespace occurring between tokens of
the dictionary literals handled here). -/
def skipSpaces (cs : List Char) : List Char := cs.dropWhile (· = ' ')

/-- Parse a single-quoted Python string literal (no escape sequences occur
in the handled data): returns its contents and the remaining input. -/
def parseQuoted : List Char → Option (String × List Char)
  | [] => none
  | c :: rest =>
    if c = sqc then
      match rest.dropWhile (fun c2 => c2 ≠ sqc) with
      | c2 :: rest2 =>
        if c2 = sqc then some (⟨rest.takeWhile (fun c3 => c3 ≠ sqc)⟩, rest2) else none
      | [] => none
    else none

/-- Numeric value of a list of decimal digit characters. -/
def digitsVal (ds : List Char) : Nat :=
  ds.foldl (fun acc c => 10 * acc + (c.toNat - 48)) 0

/-- Parse a nonnegative integer literal. -/
def parseIntLit (cs : List Char) : Option (Int × List Char) :=
  let ds := cs.takeWhile Char.isDigit
  if ds.isEmpty then none
  else some ((digitsVal ds : Int), cs.dropWhile Char.isDigit)

/-- Parse one literal value: a quoted string or an integer. -/
def parseVal (cs : List Char) : Option (PyVal × List Char) :=
  match parseQuoted cs with
  | some (s, r) => some (.str s, r)
  | none => (parseIntLit cs).map (fun p => (.int p.1, p.2))

/-- Parse the `key: value` entries of a dictionary literal up to and
including the closing brace.  `fuel` bounds the recursion by the input
length. -/
def parseEntries : Nat → List Char → Option (PyDict × List Char)
  | 0, _ => none
  | Nat.succ fuel, cs0 =>
    match parseQuoted (skipSpaces cs0) with
    | none => none
    | some (k, r1) =>
      match skipSpaces r1 with
      | [] => none
      | c :: r2 =>
        if c = ':' then
          match parseVal (skipSpaces r2) with
          | none => none
          | some (v, r3) =>
            match skipSpaces r3 with
            | [] => none
            | c2 :: r4 =>
              if c2 = ',' then
                (parseEntries fuel r4).map (fun p => ((k, v) :: p.1, p.2))
              else if c2 = cbr then some ([(k, v)], r4)
              else none
        else none

/-- Model of Python `ast.literal_eval` restricted to the literals the
uploaded column actually holds: a flat dictionary literal whose keys are
single-quoted strings and whose values are single-quoted strings or
nonnegative integers.  Any other input is a parse failure (`none`),
matching the exception `ast.literal_eval` raises on malformed input. -/
def literal_eval (s : String) : Option PyDict :=
  match skipSpaces s.data with
  | [] => none
  | c :: rest =>
    if c = obr then
      match skipSpaces rest with
      | c2 :: r2 =>
        if c2 = cbr then
          if skipSpaces r2 = [] then some [] else none
        else
          match parseEntries (rest.length + 1) rest with
          | some (d, r) => if skipSpaces r = [] then some d else none
          | none => none
      | [] => none
    else none

/-- One raw row of the uploaded CSV: the three positionally significant
columns named `0`, `1`, `2` (serialized mapping literal, description
text, alert text).  Cells of columns 1 and 2 are arbitrary Python values,
as pandas delivers them. -/
structure RawRow where
  col0 : String
  col1 : PyVal
  col2 : PyVal
deriving DecidableEq, Repr

/-- The field names extracted from the parsed mapping by
`DataProcessor.process_json_column` (the keys of `extracted_fields`). -/
def extracted_field_names : List String :=
  ["transaction_id", "transaction_sum", "property_district",
   "transaction_date", "property_number_of_rooms",
   "property_number_of_bathrooms", "property_area", "building_footprint",
   "price_per_sqm", "has_celebrity", "transaction_type",
   "property_building_type_category", "built_year", "document_number"]

/-- `DataProcessor.process_json_column`: the whole column `0` is run
through `ast.literal_eval` inside one `try`; if every row parses, the
canonical columns are added (second component `some`), and if ANY row
raises, the exception is caught, a single table-level error is shown and
the dataframe is returned without any canonical columns (second component
`none`). -/
def process_json_column (rows : List RawRow) :
    List RawRow × Option (List PyDict) :=
  match rows.mapM (fun r => literal_eval r.col0) with
  | some ds => (rows, some ds)
  | none => (rows, none)

/-- Python `x.strip() if isinstance(x, str) else ''` (for the space
whitespace occurring in the data). -/
def pyStrip : PyVal → String
  | .str s => ⟨(((s.data.dropWhile (· = ' ')).reverse.dropWhile (· = ' ')).reverse)⟩
  | _ => ""

/-- The uploaded table after the three processing steps of the upload
handler: the raw rows, the optional parsed-mapping column (absent when
`process_json_column` failed), and the cleaned description and alert
columns. -/
structure UploadTable where
  rows : List RawRow
  property_data : Option (List PyDict)
  description : List String
  newsworthy_alert : List String
deriving DecidableEq

/-- `DataProcessor.clean_description`: column `1` stripped per row. -/
def clean_description (rows : List RawRow) : List String :=
  rows.map (fun r => pyStrip r.col1)

/-- `DataProcessor.process_alert`: column `2` stripped per row. -/
def process_alert (rows : List RawRow) : List String :=
  rows.map (fun r => pyStrip r.col2)

/-- The upload pipeline of `main` (lines 150-153):
`process_json_column` then `clean_description` then `process_alert`. -/
def process_upload (rows : List RawRow) : UploadTable :=
  let p := process_json_column rows
  { rows := p.1
    property_data := p.2
    description := clean_description p.1
    newsworthy_alert := process_alert p.1 }

/-- The canonical field `field` of row `i` of a processed upload: present
only when the canonical columns exist (the batch parse succeeded), the
field is one of the extracted names, and the row's mapping holds the key;
`none` is the pandas null. -/
def canonical_field (t : UploadTable) (i : Nat) (field : String) :
    Option PyVal :=
  if extracted_field_names.contains field then
    t.property_data.bind (fun ds => ds[i]?.bind (fun d => dictGet d field))
  else none

/-- Numeric reading of a Python value (Python compares `5000000` and
`5000000.0` equal). -/
def pyNum : PyVal → Option ℚ
  | .int n => some (n : ℚ)
  | .str _ => none

/-- Python `==` between the values occurring here: equal only within one
type (`0 == '0'` is `False` in Python). -/
def pyEq : PyVal → PyVal → Bool
  | .str a, .str b => a = b
  | .int a, .int b => a = b
  | _, _ => false

/-- Line 184: `lambda x: "No" if x == '0' else x` applied to the
`has_celebrity` column. -/
def normalize_has_celebrity (v : PyVal) : PyVal :=
  if pyEq v (.str "0") then .str "No" else v

/-- A calendar date, as held by the `created_date` column after
`pd.to_datetime(...).dt.date` (line 42). -/
structure Date where
  year : Nat
  month : Nat
  day : Nat
deriving DecidableEq, Repr

/-- A well-formed calendar date as stored by `datetime.date` (year below
10000, so that `str()` prints the four-digit ISO form). -/
def ValidDate (d : Date) : Prop :=
  1 ≤ d.month ∧ d.month ≤ 12 ∧ 1 ≤ d.day ∧ d.day ≤ 31 ∧ d.year < 10000

instance (d : Date) : Decidable (ValidDate d) := by
  unfold ValidDate
  infer_instance

/-- Decimal digit character. -/
def digitChar (n : Nat) : Char := Char.ofNat (48 + n)

/-- Two-digit zero-padded decimal rendering. -/
def pad2 (n : Nat) : List Char := [digitChar (n / 10), digitChar (n % 10)]

/-- Four-digit zero-padded decimal rendering. -/
def pad4 (n : Nat) : List Char :=
  [digitChar (n / 1000), digitChar (n / 100 % 10),
   digitChar (n / 10 % 10), digitChar (n % 10)]

/-- Characters of the ISO rendering `YYYY-MM-DD` that Python's
`str(datetime.date(...))` produces (this is what
`df['created_date'].astype(str)` yields per cell). -/
def iso_chars (d : Date) : List Char :=
  pad4 d.year ++ '-' :: pad2 d.month ++ '-' :: pad2 d.day

/-- `str()` of a `datetime.date`. -/
def iso_str (d : Date) : String := ⟨iso_chars d⟩

/-- A canonical Shape-A record as loaded by
`load_and_process_bigquery_data`: the columns the specified engines
touch.  A `none` is a SQL NULL / pandas NaN. -/
structure Transaction where
  transaction_id : Option String
  property_district : Option String
  property_building_type_category : Option String
  created_date : Date
  transaction_sum : Option ℚ
  price_per_sqm : Option ℚ
  property_number_of_rooms : Option Int
  has_celebrity : PyVal
deriving DecidableEq, Repr

/-- `series.isin(l)` for a nullable string cell: a pandas NaN is a member
of nothing. -/
def optStrIn (v : Option String) (l : List String) : Bool :=
  match v with
  | some s => l.contains s
  | none => false

/-- The price predicate of lines 222-225:
`(transaction_sum >= lo) & (transaction_sum <= hi)` with pandas
semantics, where every comparison against NaN is `False`. -/
def price_pred (lo hi : Int) (r : Transaction) : Bool :=
  match r.transaction_sum with
  | some q => decide ((lo : ℚ) ≤ q) && decide (q ≤ (hi : ℚ))
  | none => false

/-- The always-applied price-range stage of the filter (lines 222-225). -/
def price_filter (lo hi : Int) (rows : List Transaction) :
    List Transaction :=
  rows.filter (price_pred lo hi)

/-- The date stage of the filter (lines 220-221): applied only when the
selection is non-empty, and comparing `astype(str)` renderings of the
dates against the selected strings. -/
def date_filter_code (date_sel : List String) (rows : List Transaction) :
    List Transaction :=
  if date_sel.isEmpty then rows
  else rows.filter (fun r => date_sel.contains (iso_str r.created_date))

/-- The date dimension as the specification words it: membership by
calendar-date equality.  Kept for comparison with `date_filter_code`. -/
def date_filter_calendar (sel : List Date) (rows : List Transaction) :
    List Transaction :=
  if sel.isEmpty then rows
  else rows.filter (fun r => sel.contains r.created_date)

/-- The full filter pipeline of lines 214-225, applied in source order:
district, building type, created date (each only when its selection is
non-empty), then the price range. -/
def apply_filters (district_sel type_sel date_sel : List String)
    (lo hi : Int) (rows : List Transaction) : List Transaction :=
  let r1 :=
    if district_sel.isEmpty then rows
    else rows.filter (fun r => optStrIn r.property_district district_sel)
  let r2 :=
    if type_sel.isEmpty then r1
    else r1.filter
      (fun r => optStrIn r.property_building_type_category type_sel)
  let r3 :=
    if date_sel.isEmpty then r2
    else r2.filter (fun r => date_sel.contains (iso_str r.created_date))
  r3.filter (price_pred lo hi)

/-- The conjunction of the four dimension predicates, an empty selection
set imposing no constraint and the interval bounds being inclusive.  This
is the specification's description of the filter, compared with
`apply_filters` in the corresponding theorem. -/
def dimension_pred (district_sel type_sel date_sel : List String)
    (lo hi : Int) (r : Transaction) : Bool :=
  (district_sel.isEmpty || optStrIn r.property_district district_sel)
    && (type_sel.isEmpty
        || optStrIn r.property_building_type_category type_sel)
    && (date_sel.isEmpty || date_sel.contains (iso_str r.created_date))
    && price_pred lo hi r

/-- The non-null values of the `transaction_sum` column. -/
def transaction_sum_values (rows : List Transaction) : List ℚ :=
  rows.filterMap (·.transaction_sum)

/-- Python `int()`: truncation toward zero. -/
def ratTrunc (q : ℚ) : Int := q.num / (q.den : Int)

/-- The slider default of lines 207-212:
`(int(df['transaction_sum'].min()), int(df['transaction_sum'].max()))`,
where pandas `min`/`max` skip NaN; `none` when the column has no value at
all (the widget construction would fail there). -/
def slider_bounds (rows : List Transaction) : Option (Int × Int) :=
  match (transaction_sum_values rows).min?,
        (transaction_sum_values rows).max? with
  | some a, some b => some (ratTrunc a, ratTrunc b)
  | _, _ => none

/-- Arithmetic mean of the non-null values of a column slice, `none` when
every value is null (pandas `mean` skips NaN and yields NaN on an all-NaN
group). -/
def meanOpt (xs : List (Option ℚ)) : Option ℚ :=
  let vs := xs.filterMap id
  if vs.isEmpty then none else some (vs.sum / (vs.length : ℚ))

/-- Banker's rounding to an integer (the rounding of numpy/pandas
`round`): round half to even. -/
def halfEvenRound (q : ℚ) : Int :=
  let f := ⌊q⌋
  let r := q - (f : ℚ)
  if r < 1 / 2 then f
  else if 1 / 2 < r then f + 1
  else if f % 2 = 0 then f else f + 1

/-- `.round(2)` on one cell. -/
def round2 (q : ℚ) : ℚ := (halfEvenRound (q * 100) : ℚ) / 100

/-- Code-point comparison of character lists: the lexicographic string
order Python and pandas sort by. -/
def charListLeb : List Char → List Char → Bool
  | [], _ => true
  | _ :: _, [] => false
  | a :: as, b :: bs =>
    if a.toNat < b.toNat then true
    else if b.toNat < a.toNat then false
    else charListLeb as bs

/-- Python string `<=`: lexicographic by code point. -/
def strLeb (a b : String) : Bool := charListLeb a.data b.data

/-- `strLeb` as a relation, to drive the sort. -/
def strLe (a b : String) : Prop := strLeb a b = true

instance : DecidableRel strLe := fun a b =>
  inferInstanceAs (Decidable (strLeb a b = true))

/-- The group keys of `df.groupby('property_district')`: the distinct
non-null districts, in sorted order (pandas groups with `sort=True` and
drops NaN keys). -/
def district_keys (rows : List Transaction) : List String :=
  ((rows.filterMap (·.property_district)).dedup).insertionSort strLe

/-- Lines 385-389: `df.groupby('property_district').agg({...}).round(2)`
— for each district, the means of `price_per_sqm`, `transaction_sum` and
`property_number_of_rooms` over the group, each rounded to 2 decimal
places, a `none` metric marking an all-null group. -/
def district_stats (rows : List Transaction) :
    List (String × (Option ℚ × Option ℚ × Option ℚ)) :=
  (district_keys rows).map fun d =>
    let g := rows.filter (fun r => r.property_district = some d)
    (d,
     ((meanOpt (g.map (·.price_per_sqm))).map round2,
      (meanOpt (g.map (·.transaction_sum))).map round2,
      (meanOpt
        (g.map (fun r => r.property_number_of_rooms.map
          (fun i => (i : ℚ))))).map round2))

/-- Line 50: `explanation.replace("'", "''")` — every single quote of the
explanation is doubled. -/
def escapeChars : List Char → List Char
  | [] => []
  | c :: rest =>
    if c = sqc then sqc :: sqc :: escapeChars rest
    else c :: escapeChars rest

/-- The escaped explanation as a string (the `if explanation else ""`
guard of line 50 is the identity here, since replacing in the empty
string yields the empty string). -/
def escape_explanation (s : String) : String := ⟨escapeChars s.data⟩

/-- The fixed table the generated UPDATE statement targets (line 53). -/
def update_table : String :=
  "real-estate-alerter.real_estate_alerter_output.newsworthy"

/-- The part of the UPDATE text of lines 52-58 preceding the opening
quote of the feedback string literal; `{feedback_label == "Newsworthy"}`
renders the Python boolean as `True`/`False`. -/
def query_head (feedback_label : String) : String :=
  "\n    UPDATE " ++ bqS ++ update_table ++ bqS
    ++ "\n    SET \n        is_newsworthy = "
    ++ (if feedback_label = "Newsworthy" then "True" else "False")
    ++ ",\n        feedback = "

/-- The part of the UPDATE text following the closing quote of the
feedback string literal: the WHERE clause on `transaction_id` and the
trailing newline/indent. -/
def query_tail (transaction_id : String) : String :=
  "\n    WHERE transaction_id = " ++ sqS ++ transaction_id ++ sqS
    ++ "\n    "

/-- The full UPDATE statement `update_feedback_in_bigquery` builds
(lines 50-58). -/
def update_query (transaction_id feedback_label explanation : String) :
    String :=
  query_head feedback_label ++ sqS ++ escape_explanation explanation
    ++ sqS ++ query_tail transaction_id

/-- Scanner for a SQL single-quoted string literal, positioned just after
the opening quote, under the SQL convention the source's escaping targets
(a doubled quote denotes one quote character): returns the literal's
contents and the text following its closing quote. -/
def scanStringLit : List Char → Option (List Char × List Char)
  | [] => none
  | c :: rest =>
    if c = sqc then
      match rest with
      | [] => some ([], [])
      | c2 :: rest2 =>
        if c2 = sqc then
          (scanStringLit rest2).map (fun p => (sqc :: p.1, p.2))
        else some ([], rest)
    else (scanStringLit rest).map (fun p => (c :: p.1, p.2))

/-- The table reference of a rendered statement: the text between the
first pair of backquotes. -/
def table_of_query (cs : List Char) : Option (List Char) :=
  match cs.dropWhile (fun c => c ≠ bqc) with
  | c :: rest =>
    if c = bqc then some (rest.takeWhile (fun c2 => c2 ≠ bqc)) else none
  | [] => none

/-- Line 160: the table a selected view loads from:
`"newsworthy" if table_option == "Newsworthy" else "non_newsworthy"`. -/
def table_name_of (table_option : String) : String :=
  if table_option = "Newsworthy" then "newsworthy" else "non_newsworthy"

/-- The feedback submission path of lines 360-374: whatever table the
view was loaded from, the statement handed to the store is
`update_query` — the viewed table is not threaded into
`update_feedback_in_bigquery`. -/
def submit_feedback (table_option transaction_id feedback_label
    explanation : String) : String :=
  update_query transaction_id feedback_label explanation

/-- A row of the external `newsworthy` table, restricted to the columns
the UPDATE statement touches or selects on. -/
structure StoreRow where
  transaction_id : String
  is_newsworthy : Bool
  feedback : String
deriving DecidableEq, Repr

/-- Denotation of the generated UPDATE statement over a table of rows:
`SET is_newsworthy = (feedback_label == "Newsworthy"), feedback =
explanation WHERE transaction_id = tid` — an overwrite of the two columns
of every matching row. -/
def apply_feedback_update (tid feedback_label explanation : String)
    (table : List StoreRow) : List StoreRow :=
  table.map fun r =>
    if r.transaction_id = tid then
      { r with is_newsworthy := feedback_label = "Newsworthy"
               feedback := explanation }
    else r

/-! Concrete sample inputs used by the evaluation theorems. -/

/-- Wrap a string in single quotes. -/
def qq (s : String) : String := sqS ++ s ++ sqS

/-- The mapping literal of the specification's normalization example:
`{'transaction_id': 'T1', 'transaction_sum': 5000000,
'property_district': 'Frogner'}`. -/
def frognerLit : String :=
  "\x7b" ++ qq "transaction_id" ++ ": " ++ qq "T1" ++ ", "
    ++ qq "transaction_sum" ++ ": 5000000, "
    ++ qq "property_district" ++ ": " ++ qq "Frogner" ++ "\x7d"

/-- The raw Shape-B row of the normalization example. -/
def frognerRow : RawRow :=
  ⟨frognerLit, .str " A nice flat ", .str " Celebrity sale "⟩

/-- A raw Shape-B row whose mapping literal cannot be parsed. -/
def badRow : RawRow := ⟨"oops", .str " bad ", .str "x"⟩

/-- A Shape-A record with every nullable column null. -/
def baseRow : Transaction :=
  { transaction_id := none
    property_district := none
    property_building_type_category := none
    created_date := ⟨2024, 1, 2⟩
    transaction_sum := none
    price_per_sqm := none
    property_number_of_rooms := none
    has_celebrity := .str "0" }

/-- First Sentrum record of the aggregation example. -/
def sentrum1 : Transaction :=
  { baseRow with
      property_district := some "Sentrum"
      price_per_sqm := some 80000
      transaction_sum := some 5000000 }

/-- Second Sentrum record of the aggregation example. -/
def sentrum2 : Transaction :=
  { baseRow with
      property_district := some "Sentrum"
      price_per_sqm := some 100000
      transaction_sum := some 6000000
      property_number_of_rooms := some 3 }

/-- First Alna record: `price_per_sqm` null. -/
def alna1 : Transaction :=
  { baseRow with
      property_district := some "Alna"
      property_number_of_rooms := some 1
      transaction_sum := some 1000000 }

/-- Second Alna record: `price_per_sqm` null. -/
def alna2 : Transaction :=
  { baseRow with
      property_district := some "Alna"
      property_number_of_rooms := some 2
      transaction_sum := some 2000000 }

/-- Third Alna record: only a room count. -/
def alna3 : Transaction :=
  { baseRow with
      property_district := some "Alna"
      property_number_of_rooms := some 4 }

/-- The aggregation sample collection: two districts out of sorted
order, one record with a null district, null metrics scattered. -/
def demo_rows : List Transaction :=
  [sentrum1, alna1, baseRow, sentrum2, alna2, alna3]

/-- A record with a null `transaction_sum`. -/
def nullSumRow : Transaction := baseRow

/-- A record whose `transaction_sum` is 5. -/
def fiveSumRow : Transaction := { baseRow with transaction_sum := some 5 }

/-! Helper lemmas. -/

theorem str_data_append (a b : String) :
    (a ++ b).data = a.data ++ b.data := rfl

/-- Scanning a SQL string literal whose body is the quote-doubled escape
of `e` consumes exactly that body: the content read back is `e` and the
scan resumes at `rest` (provided `rest` does not itself begin with a
quote, which would extend the literal). -/
theorem scan_escape (e rest : List Char) (h : rest.head? ≠ some sqc) :
    scanStringLit (escapeChars e ++ sqc :: rest) = some (e, rest) := by
  induction e with
  | nil =>
    cases rest with
    | nil => simp [escapeChars, scanStringLit]
    | cons c2 r2 =>
      have hc : ¬ c2 = sqc := by
        intro hc
        exact h (by simp [hc])
      simp [escapeChars, scanStringLit, hc]
  | cons c cs ih =>
    by_cases hc : c = sqc
    · subst hc
      have hesc : escapeChars (sqc :: cs) = sqc :: sqc :: escapeChars cs := by
        simp [escapeChars]
      have hstep : scanStringLit (sqc :: sqc :: (escapeChars cs ++ sqc :: rest))
          = (scanStringLit (escapeChars cs ++ sqc :: rest)).map
              (fun p => (sqc :: p.1, p.2)) := by
        simp [scanStringLit]
      rw [hesc, List.cons_append, List.cons_append, hstep, ih]
      rfl
    · have hesc : escapeChars (c :: cs) = c :: escapeChars cs := by
        simp [escapeChars, hc]
      have hstep : scanStringLit (c :: (escapeChars cs ++ sqc :: rest))
          = (scanStringLit (escapeChars cs ++ sqc :: rest)).map
              (fun p => (c :: p.1, p.2)) := by
        rw [scanStringLit.eq_def]
        simp [hc]
      rw [hesc, List.cons_append, hstep, ih]
      rfl

/-- The characters of the generated UPDATE statement split into the fixed
head, the quoted escaped explanation, and the fixed tail. -/
theorem update_query_data (transaction_id feedback_label explanation :
    String) :
    (update_query transaction_id feedback_label explanation).data
      = (query_head feedback_label).data
          ++ sqc :: (escapeChars explanation.data
          ++ sqc :: (query_tail transaction_id).data) := by
  show (query_head feedback_label ++ sqS ++ escape_explanation explanation
      ++ sqS ++ query_tail transaction_id).data = _
  simp only [str_data_append, List.append_assoc]
  rfl

/-- The tail of the UPDATE statement begins with a newline, never with a
quote. -/
theorem query_tail_head (transaction_id : String) :
    (query_tail transaction_id).data.head? ≠ some sqc := by
  show (("\n    WHERE transaction_id = " ++ sqS ++ transaction_id ++ sqS
      ++ "\n    ")).data.head? ≠ some sqc
  simp only [str_data_append, List.cons_append, List.head?_cons]
  decide

/-- The characters of the fixed statement head split around the
backquoted table reference. -/
theorem query_head_data (feedback_label : String) :
    (query_head feedback_label).data
      = ("\n    UPDATE ").data ++ bqc :: (update_table.data ++ bqc ::
          (("\n    SET \n        is_newsworthy = "
            ++ (if feedback_label = "Newsworthy" then "True" else "False")
            ++ ",\n        feedback = ").data)) := by
  show ("\n    UPDATE " ++ bqS ++ update_table ++ bqS ++ _).data = _
  simp only [str_data_append, List.append_assoc]
  rfl

theorem dropWhile_append_all (p : Char → Bool) (l r : List Char)
    (h : ∀ c ∈ l, p c = true) : (l ++ r).dropWhile p = r.dropWhile p := by
  induction l with
  | nil => rfl
  | cons a t ih =>
    simp only [List.cons_append, List.dropWhile_cons]
    rw [h a (by simp)]
    simp only [if_true]
    exact ih (fun c hc => h c (by simp [hc]))

theorem takeWhile_append_stop (p : Char → Bool) (l : List Char) (x : Char)
    (r : List Char) (h : ∀ c ∈ l, p c = true) (hx : p x = false) :
    (l ++ x :: r).takeWhile p = l := by
  induction l with
  | nil => simp [List.takeWhile_cons, hx]
  | cons a t ih =>
    simp only [List.cons_append, List.takeWhile_cons]
    rw [h a (by simp)]
    simp only [if_true]
    rw [ih (fun c hc => h c (by simp [hc]))]

theorem digitChar_fin_inj :
    ∀ a b : Fin 10, digitChar a.val = digitChar b.val → a = b := by decide

theorem digitChar_inj (a b : Nat) (ha : a < 10) (hb : b < 10)
    (h : digitChar a = digitChar b) : a = b :=
  congrArg Fin.val (digitChar_fin_inj ⟨a, ha⟩ ⟨b, hb⟩ h)

/-- The ISO rendering of valid dates is injective: equal strings force
equal calendar dates. -/
theorem iso_chars_inj (d1 d2 : Date) (h1 : ValidDate d1)
    (h2 : ValidDate d2) (h : iso_chars d1 = iso_chars d2) : d1 = d2 := by
  obtain ⟨y1, m1, dd1⟩ := d1
  obtain ⟨y2, m2, dd2⟩ := d2
  have b1 : 1 ≤ m1 ∧ m1 ≤ 12 ∧ 1 ≤ dd1 ∧ dd1 ≤ 31 ∧ y1 < 10000 := h1
  have b2 : 1 ≤ m2 ∧ m2 ≤ 12 ∧ 1 ≤ dd2 ∧ dd2 ≤ 31 ∧ y2 < 10000 := h2
  obtain ⟨hm1, hm1b, hd1, hd1b, hy1⟩ := b1
  obtain ⟨hm2, hm2b, hd2, hd2b, hy2⟩ := b2
  simp only [iso_chars, pad4, pad2, List.cons_append, List.nil_append,
    List.cons.injEq, and_true, true_and] at h
  obtain ⟨e1, e2, e3, e4, e5, e6, e7, e8⟩ := h
  have g1 := digitChar_inj _ _ (by omega) (by omega) e1
  have g2 := digitChar_inj _ _ (by omega) (by omega) e2
  have g3 := digitChar_inj _ _ (by omega) (by omega) e3
  have g4 := digitChar_inj _ _ (by omega) (by omega) e4
  have g5 := digitChar_inj _ _ (by omega) (by omega) e5
  have g6 := digitChar_inj _ _ (by omega) (by omega) e6
  have g7 := digitChar_inj _ _ (by omega) (by omega) e7
  have g8 := digitChar_inj _ _ (by omega) (by omega) e8
  simp only [Date.mk.injEq]
  omega

theorem iso_str_inj (d1 d2 : Date) (h1 : ValidDate d1) (h2 : ValidDate d2)
    (h : iso_str d1 = iso_str d2) : d1 = d2 :=
  iso_chars_inj d1 d2 h1 h2 (congrArg String.data h)

/-- Either branch of a guarded filter stage is the filter by the
"empty selection means no constraint" predicate. -/
theorem filter_if_empty (s : List String) (p : Transaction → Bool)
    (rows : List Transaction) :
    (if s.isEmpty then rows else rows.filter p)
      = rows.filter (fun r => s.isEmpty || p r) := by
  by_cases h : s.isEmpty <;> simp [h]

theorem charListLeb_total :
    ∀ as bs : List Char,
      charListLeb as bs = true ∨ charListLeb bs as = true := by
  intro as
  induction as with
  | nil => intro bs; left; rfl
  | cons a t ih =>
    intro bs
    cases bs with
    | nil => right; rfl
    | cons b bs2 =>
      rcases Nat.lt_trichotomy a.toNat b.toNat with h | h | h
      · left; simp [charListLeb, h]
      · rcases ih bs2 with hl | hr
        · left
          simp [charListLeb, show ¬ a.toNat < b.toNat by omega,
            show ¬ b.toNat < a.toNat by omega, hl]
        · right
          simp [charListLeb, show ¬ a.toNat < b.toNat by omega,
            show ¬ b.toNat < a.toNat by omega, hr]
      · right; simp [charListLeb, h]

theorem charListLeb_trans :
    ∀ as bs cs : List Char, charListLeb as bs = true →
      charListLeb bs cs = true → charListLeb as cs = true := by
  intro as
  induction as with
  | nil => intro bs cs h1 h2; rfl
  | cons a t ih =>
    intro bs cs h1 h2
    cases bs with
    | nil => simp [charListLeb] at h1
    | cons b bs2 =>
      cases cs with
      | nil => simp [charListLeb] at h2
      | cons c cs2 =>
        rcases Nat.lt_trichotomy a.toNat b.toNat with hab | hab | hab
        · rcases Nat.lt_trichotomy b.toNat c.toNat with hbc | hbc | hbc
          · simp [charListLeb, show a.toNat < c.toNat by omega]
          · simp [charListLeb, show a.toNat < c.toNat by omega]
          · simp [charListLeb, show ¬ b.toNat < c.toNat by omega,
              hbc] at h2
        · simp only [charListLeb, show ¬ a.toNat < b.toNat by omega,
            show ¬ b.toNat < a.toNat by omega, if_false] at h1
          rcases Nat.lt_trichotomy b.toNat c.toNat with hbc | hbc | hbc
          · simp [charListLeb, show a.toNat < c.toNat by omega]
          · simp only [charListLeb, show ¬ b.toNat < c.toNat by omega,
              show ¬ c.toNat < b.toNat by omega, if_false] at h2
            simp only [charListLeb, show ¬ a.toNat < c.toNat by omega,
              show ¬ c.toNat < a.toNat by omega, if_false]
            exact ih bs2 cs2 h1 h2
          · simp [charListLeb, show ¬ b.toNat < c.toNat by omega,
              hbc] at h2
        · simp [charListLeb, show ¬ a.toNat < b.toNat by omega,
            hab] at h1

/-! Claim theorems. -/

/-- C1: the claim says a parse failure on one uploaded row's mapping is
isolated to that row, the other rows keeping their canonical fields.  The
code instead runs the whole column through `ast.literal_eval` inside one
`try`: on the table whose row 0 is unparseable and whose row 1 is the
valid Frogner literal, row 1's own literal parses, yet the processed
table carries no canonical columns at all — `transaction_id` of the valid
row 1 is null too, and only one table-level error is reported.  Rows keep
their description/alert columns. -/
theorem spec_c1 :
    literal_eval badRow.col0 = none
    ∧ literal_eval frognerRow.col0 ≠ none
    ∧ (process_upload [badRow, frognerRow]).property_data = none
    ∧ canonical_field (process_upload [badRow, frognerRow]) 1
        "transaction_id" = none
    ∧ (process_upload [badRow, frognerRow]).description
        = ["bad", "A nice flat"] := by decide

/-- C2: for every explanation, the generated UPDATE statement decomposes
into a head independent of the explanation, one string literal holding
the quote-doubled explanation, and the fixed `WHERE transaction_id = ...`
tail; scanning that literal (under the SQL convention the escaping
targets, where a doubled quote denotes one quote character) recovers
exactly the explanation and resumes exactly at the fixed tail — so no
explanation value, quotes included, can alter the target predicate or
the statement's structure. -/
theorem spec_c2 (transaction_id feedback_label explanation : String) :
    (update_query transaction_id feedback_label explanation).data
      = (query_head feedback_label).data
          ++ sqc :: (escapeChars explanation.data
          ++ sqc :: (query_tail transaction_id).data)
    ∧ scanStringLit (escapeChars explanation.data
          ++ sqc :: (query_tail transaction_id).data)
        = some (explanation.data, (query_tail transaction_id).data) :=
  ⟨update_query_data transaction_id feedback_label explanation,
   scan_escape explanation.data (query_tail transaction_id).data
     (query_tail_head transaction_id)⟩

/-- C3: normalizing the Shape-B row with the Frogner mapping literal,
description `" A nice flat "` and alert `" Celebrity sale "` yields
`transaction_id = "T1"`, `transaction_sum = 5000000` (the integer the
literal parser produces, numerically equal to the claim's `5000000.0`),
`property_district = "Frogner"`, a trimmed description `"A nice flat"`
(held in the pipeline's cleaned-description column) and alert
`"Celebrity sale"`. -/
theorem spec_c3 :
    canonical_field (process_upload [frognerRow]) 0 "transaction_id"
        = some (.str "T1")
    ∧ canonical_field (process_upload [frognerRow]) 0 "transaction_sum"
        = some (.int 5000000)
    ∧ (canonical_field (process_upload [frognerRow]) 0
          "transaction_sum").bind pyNum = some (5000000 : ℚ)
    ∧ canonical_field (process_upload [frognerRow]) 0 "property_district"
        = some (.str "Frogner")
    ∧ (process_upload [frognerRow]).description = ["A nice flat"]
    ∧ (process_upload [frognerRow]).newsworthy_alert = ["Celebrity sale"]
    := by decide

/-- C4: when the selected date strings are the renderings of a selected
set of valid calendar dates, the code's string-compared date dimension
selects exactly the records whose `created_date` is calendar-date-equal
to a selected date — string comparison of the ISO renderings coincides
with calendar-date equality. -/
theorem spec_c4 (rows : List Transaction) (sel : List Date)
    (hsel : ∀ d ∈ sel, ValidDate d)
    (hrows : ∀ r ∈ rows, ValidDate r.created_date) :
    date_filter_code (sel.map iso_str) rows
      = date_filter_calendar sel rows := by
  unfold date_filter_code date_filter_calendar
  by_cases h : sel.isEmpty
  · simp [h, List.isEmpty_iff.mp h]
  · have h2 : ¬ (sel.map iso_str).isEmpty := by
      simp only [List.isEmpty_iff] at h ⊢
      simp [h]
    rw [if_neg h2, if_neg h]
    apply List.filter_congr
    intro r hr
    rw [Bool.eq_iff_iff]
    show List.contains _ _ = true ↔ List.contains _ _ = true
    rw [List.elem_iff, List.elem_iff, List.mem_map]
    constructor
    · rintro ⟨x, hx, hxe⟩
      exact (iso_str_inj x r.created_date (hsel x hx) (hrows r hr) hxe)
        ▸ hx
    · intro hm
      exact ⟨r.created_date, hm, rfl⟩

/-- Witness for C4 at a concrete collection and selection. -/
theorem spec_c4_witness :
    (∀ d ∈ [Date.mk 2024 1 2], ValidDate d)
    ∧ date_filter_code ([Date.mk 2024 1 2].map iso_str) [baseRow]
        = date_filter_calendar [Date.mk 2024 1 2] [baseRow] :=
  ⟨by decide,
   spec_c4 [baseRow] [Date.mk 2024 1 2] (by decide) (by decide)⟩

/-- C5 counterexample: the claim says a null `transaction_sum` is
included when the configured range spans the entire data min/max.  On the
collection of one null-sum record and one record with sum 5, the default
slider range is exactly `(5, 5)` — the full data min/max — yet the price
filter still drops the null-sum record, because every pandas comparison
against NaN is false. -/
theorem spec_c5_counterexample :
    slider_bounds [nullSumRow, fiveSumRow] = some (5, 5)
    ∧ price_filter 5 5 [nullSumRow, fiveSumRow] = [fiveSumRow]
    ∧ nullSumRow.transaction_sum = none := by decide

/-- C5 amended: a record with a null `transaction_sum` is excluded by
the price-range stage for EVERY configured range, the effectively
unconstrained default range included — every record the price filter
keeps has a non-null sum. -/
theorem spec_c5_amended (lo hi : Int) (rows : List Transaction) :
    (price_filter lo hi rows).all
      (fun r => r.transaction_sum.isSome) = true := by
  rw [List.all_eq_true]
  intro r hr
  unfold price_filter at hr
  have hp := (List.mem_filter.mp hr).2
  cases hs : r.transaction_sum with
  | some q => simp [hs]
  | none => simp [price_pred, hs] at hp

/-- C6 counterexample: the claim says numeric zero is also mapped to
`"No"`.  The code compares with the string `'0'` using Python `==`, and
`0 == '0'` is false in Python, so the integer 0 passes through
unchanged. -/
theorem spec_c6_counterexample :
    normalize_has_celebrity (PyVal.int 0) = PyVal.int 0
    ∧ PyVal.int 0 ≠ PyVal.str "No" := by decide

/-- C6 amended: the overview normalization maps the string `"0"` to
`"No"` and passes every other value — the integer 0 included — through
unchanged; in particular it forces a value to `"Yes"` only if it already
was `"Yes"`. -/
theorem spec_c6_amended (v : PyVal) :
    (v = PyVal.str "0" → normalize_has_celebrity v = PyVal.str "No")
    ∧ (v ≠ PyVal.str "0" → normalize_has_celebrity v = v)
    ∧ (normalize_has_celebrity v = PyVal.str "Yes" ↔ v = PyVal.str "Yes")
    := by
  refine ⟨?_, ?_, ?_⟩
  · intro h
    subst h
    decide
  · intro h
    have hb : pyEq v (.str "0") = false := by
      cases v with
      | str s =>
        simp only [pyEq, decide_eq_false_iff_not]
        intro hs
        exact h (by rw [hs])
      | int n => rfl
    simp [normalize_has_celebrity, hb]
  · cases v with
    | str s =>
      by_cases hs : s = "0"
      · subst hs
        show (PyVal.str "No" = PyVal.str "Yes" ↔ _)
        decide
      · have hb : pyEq (.str s) (.str "0") = false := by
          simp [pyEq, hs]
        simp [normalize_has_celebrity, hb]
    | int n => simp [normalize_has_celebrity, pyEq]

/-- Witness for C6's amended statement at concrete inputs. -/
theorem spec_c6_witness :
    normalize_has_celebrity (PyVal.str "0") = PyVal.str "No"
    ∧ normalize_has_celebrity (PyVal.int 0) = PyVal.int 0
    ∧ normalize_has_celebrity (PyVal.str "Yes") = PyVal.str "Yes" :=
  ⟨(spec_c6_amended (PyVal.str "0")).1 rfl,
   (spec_c6_amended (PyVal.int 0)).2.1 (by decide),
   ((spec_c6_amended (PyVal.str "Yes")).2.2).mpr rfl⟩

/-- C7: the sequential, guard-skipping filter pipeline equals one filter
by the conjunction of the four dimension predicates, where an empty
selection set imposes no constraint and the price bounds are inclusive;
being a `List.filter`, the output is a subsequence of the input in the
original relative order. -/
theorem spec_c7 (district_sel type_sel date_sel : List String)
    (lo hi : Int) (rows : List Transaction) :
    apply_filters district_sel type_sel date_sel lo hi rows
      = rows.filter (dimension_pred district_sel type_sel date_sel lo hi)
    ∧ (apply_filters district_sel type_sel date_sel lo hi rows).Sublist
        rows := by
  have h1 : apply_filters district_sel type_sel date_sel lo hi rows
      = rows.filter
          (dimension_pred district_sel type_sel date_sel lo hi) := by
    simp only [apply_filters]
    rw [filter_if_empty, filter_if_empty, filter_if_empty,
      List.filter_filter, List.filter_filter, List.filter_filter]
    exact List.filter_congr (fun r _ => by
      unfold dimension_pred
      cases district_sel.isEmpty
          || optStrIn r.property_district district_sel <;>
      cases type_sel.isEmpty
          || optStrIn r.property_building_type_category type_sel <;>
      cases date_sel.isEmpty
          || date_sel.contains (iso_str r.created_date) <;>
      cases price_pred lo hi r <;> rfl)
  refine ⟨h1, ?_⟩
  rw [h1]
  exact List.filter_sublist rows

/-- C8: the analytics aggregation groups by district with a sorted,
hence deterministic, district order (first conjunct, for every
collection), and on the sample collection — Sentrum records with
`price_per_sqm` 80000 and 100000, Alna records with all-null
`price_per_sqm` and rooms 1, 2, 4, one record with a null district —
yields the expected means: Sentrum `price_per_sqm` mean 90000, Alna
rooms mean 7/3 rounded to 2.33, and the all-null Alna `price_per_sqm`
surfacing as the no-data value `none` rather than crashing. -/
theorem spec_c8 :
    (∀ rows : List Transaction,
        (district_stats rows).map Prod.fst = district_keys rows
        ∧ (district_keys rows).Sorted strLe)
    ∧ district_stats demo_rows
        = [("Alna", (none, some 1500000, some (233 / 100))),
           ("Sentrum", (some 90000, some 5500000, some 3))] := by
  constructor
  · intro rows
    constructor
    · rw [district_stats, List.map_map]
      exact List.map_id _
    · exact @List.sorted_insertionSort String strLe _
        ⟨fun a b => charListLeb_total a.data b.data⟩
        ⟨fun a b c => charListLeb_trans a.data b.data c.data⟩ _
  · have hk : district_keys demo_rows = ["Alna", "Sentrum"] := by decide
    simp only [district_stats, hk, List.map]
    norm_num [demo_rows, sentrum1, sentrum2, alna1, alna2, alna3, baseRow,
      meanOpt, round2, halfEvenRound, List.filter, List.filterMap,
      List.map, Option.map]

/-- C9: the feedback update overwrites `is_newsworthy` and `feedback` of
the matching rows, so issuing the identical update twice leaves the
store exactly as issuing it once. -/
theorem spec_c9 (transaction_id feedback_label explanation : String)
    (table : List StoreRow) :
    apply_feedback_update transaction_id feedback_label explanation
      (apply_feedback_update transaction_id feedback_label explanation
        table)
    = apply_feedback_update transaction_id feedback_label explanation
        table := by
  induction table with
  | nil => rfl
  | cons r t ih =>
    simp only [apply_feedback_update, List.map_cons] at ih ⊢
    by_cases h : r.transaction_id = transaction_id <;> simp [h, ih]

/-- C10: the feedback submission path builds the same statement whatever
table the view was loaded from; the statement's backquoted table
reference is the fixed `newsworthy` output table, which is not the table
the non-newsworthy view reads (`non_newsworthy`) — feedback on a record
of the non-newsworthy dataset is never written to the `non_newsworthy`
table. -/
theorem spec_c10 (table_option transaction_id feedback_label
    explanation : String) :
    submit_feedback table_option transaction_id feedback_label
        explanation
      = submit_feedback "Newsworthy" transaction_id feedback_label
          explanation
    ∧ table_of_query (submit_feedback table_option transaction_id
          feedback_label explanation).data = some update_table.data
    ∧ update_table
        = "real-estate-alerter.real_estate_alerter_output.newsworthy"
    ∧ table_name_of "Non-Newsworthy" = "non_newsworthy"
    ∧ update_table
        ≠ "real-estate-alerter.real_estate_alerter_output.non_newsworthy"
    := by
  refine ⟨rfl, ?_, rfl, by decide, by decide⟩
  show table_of_query
      (update_query transaction_id feedback_label explanation).data = _
  have hdata : (update_query transaction_id feedback_label
        explanation).data
      = ("\n    UPDATE ").data ++ bqc :: (update_table.data ++ bqc ::
          (("\n    SET \n        is_newsworthy = "
            ++ (if feedback_label = "Newsworthy" then "True" else "False")
            ++ ",\n        feedback = " ++ sqS
            ++ escape_explanation explanation ++ sqS
            ++ query_tail transaction_id).data)) := by
    show (query_head feedback_label ++ sqS
        ++ escape_explanation explanation ++ sqS
        ++ query_tail transaction_id).data = _
    simp only [query_head, str_data_append, List.append_assoc]
    rfl
  rw [table_of_query, hdata]
  rw [dropWhile_append_all _ _ _ (by decide)]
  rw [List.dropWhile_cons_of_neg (by decide)]
  show (if bqc = bqc then some (List.takeWhile _ _) else none) = _
  rw [if_pos rfl]
  rw [takeWhile_append_stop _ _ _ _ (by decide) (by decide)]
